import Mathlib

/-!
Shallow embedding of `create_placeholder_screenshots.py`.

The script defines one function, `create_screenshot(width, height, filename,
device_name)`, and a module-level driver that creates two directories and
invokes the function 8 times.  We embed:

* the pixel canvas (`Image`) and the drawing operations the script uses
  (`Image.new`, horizontal `draw.line`, `draw.text`);
* the gradient row color formula `int(c0 + (c1 - c0) * y / height)`; the
  Python `int` truncates toward zero, and for every row `0 <= y < height` the value
  is positive, so truncation is the floor, i.e. natural-number division of
  the (non-negative) numerator `c0 * height - (c0 - c1) * y` by `height`;
* the font loading `try/except` block (an oracle `avail` says whether
  `ImageFont.truetype` succeeds for a given path and size; text measurement
  `draw.textbbox` and glyph coverage are oracles as well, since they depend on
  the host font rendering);
* the filesystem effects: `img.save` (fails when the parent directory is
  missing, or when the target path is itself a directory; it never creates
  directories) and `os.makedirs(..., exist_ok=True)` (creates each missing
  prefix directory, fails when a regular file occupies one of them);
* the module-level driver and the resulting process exit code (0 on a clean
  run; an uncaught Python exception terminates the process with exit code 1).

The `print` calls only write informational text to the console and are not
modeled.
-/

/-- An RGB color, one natural number per channel (the script only ever uses
channel values in `0..255`). -/
structure RGB where
  r : Nat
  g : Nat
  b : Nat
deriving DecidableEq, Repr

/-- The white fill color passed to the two `draw.text` calls. -/
def white : RGB := ⟨255, 255, 255⟩

/-- The gradient start color `(108, 102, 241)` used both as the `Image.new`
base fill and as the `y = 0` end of the interpolation. -/
def startColor : RGB := ⟨108, 102, 241⟩

/-- The gradient end color `(79, 70, 229)`. -/
def endColor : RGB := ⟨79, 70, 229⟩

/-- An in-memory canvas: the result of `PIL.Image.new` with mode RGB and
size `(width, height)`, plus the draws performed on it.  `pix x y` is the color of the pixel at
column `x`, row `y` (only meaningful for `x < width`, `y < height`). -/
structure Image where
  width : Nat
  height : Nat
  pix : Nat → Nat → RGB

/-- Allocation `Image.new` with mode RGB, size `(width, height)`, fill `c`. -/
def Image.new (width height : Nat) (c : RGB) : Image :=
  ⟨width, height, fun _ _ => c⟩

/-- The call `draw.line([(0, y), (width, y)], fill=c)`: the horizontal line covers the
whole of row `y` (the endpoint `x = width` lies outside the canvas and is
clipped by PIL), leaving every other row untouched. -/
def Image.drawLineH (img : Image) (y : Nat) (c : RGB) : Image :=
  { img with pix := fun px py => if py = y then c else img.pix px py }

/-- The row color computed in the gradient loop body:
`(int(108 + (79-108)*y/height), int(102 + (70-102)*y/height),
int(241 + (229-241)*y/height))`.  For `y < height` each argument of `int` is
the positive real `(c0*height - d*y)/height`, so `int` (truncation toward
zero) is floor, which is natural-number division. -/
def gradColor (height y : Nat) : RGB :=
  ⟨(108 * height - 29 * y) / height,
   (102 * height - 32 * y) / height,
   (241 * height - 12 * y) / height⟩

/-- The canvas after `img = Image.new(...)` and the gradient loop
`for y in range(height): draw.line([(0, y), (width, y)], fill=color)`. -/
def gradientImage (width height : Nat) : Image :=
  (List.range height).foldl
    (fun im y => im.drawLineH y (gradColor height y))
    (Image.new width height ⟨108, 102, 241⟩)

/-- A font value as the script sees it: either a truetype face loaded from a
path at a size, or the PIL built-in `ImageFont.load_default()`. -/
inductive Font where
  | truetype (path : String) (size : Nat)
  | load_default
deriving DecidableEq, Repr

/-- The font path the script asks for. -/
def helveticaPath : String := "/System/Library/Fonts/Helvetica.ttc"

/-- A text bounding box as returned by `draw.textbbox((0, 0), text, font)`:
`(x0, y0, x1, y1)` with `bbox[0] = x0`, `bbox[1] = y0`, `bbox[2] = x1`,
`bbox[3] = y1`. -/
structure BBox where
  x0 : Int
  y0 : Int
  x1 : Int
  y1 : Int

/-- Host environment oracles: whether `ImageFont.truetype path size`
succeeds, the bounding box `draw.textbbox((0,0), s, font)` reports, and the
glyph coverage mask of a string drawn with its origin at `(0, 0)` (which
pixels `draw.text` recolors, in coordinates relative to the draw position). -/
structure FontEnv where
  avail : String → Nat → Bool
  bbox : Font → String → BBox
  mask : Font → String → Int → Int → Bool

/-- The `try/except` font-loading block:

```
try:
    font_large = ImageFont.truetype("/System/Library/Fonts/Helvetica.ttc", 120)
    font_small = ImageFont.truetype("/System/Library/Fonts/Helvetica.ttc", 60)
except:
    font_large = ImageFont.load_default()
    font_small = ImageFont.load_default()
```

If the first call raises, the handler assigns both variables the default
font; if the second raises, `font_large` is re-assigned the default as well,
so both variables are truetype faces exactly when both loads succeed. -/
def loadFonts (avail : String → Nat → Bool) : Font × Font :=
  if avail helveticaPath 120 && avail helveticaPath 60 then
    (Font.truetype helveticaPath 120, Font.truetype helveticaPath 60)
  else
    (Font.load_default, Font.load_default)

/-- The call `draw.text((pos.1, pos.2), s, fill=fill, font=f)`: recolors exactly the
pixels covered by the glyph mask translated to `pos`. -/
def Image.drawText (img : Image) (env : FontEnv) (f : Font) (s : String)
    (pos : Int × Int) (fill : RGB) : Image :=
  { img with pix := fun px py =>
      if env.mask f s ((px : Int) - pos.1) ((py : Int) - pos.2) then fill
      else img.pix px py }

/-- The assignment `x = (width - text_width) // 2` (the Python `//` is floor division, `Int.fdiv`). -/
def centerX (width : Nat) (text_width : Int) : Int :=
  ((width : Int) - text_width).fdiv 2

/-- The measured width `bbox[2] - bbox[0]` for the given string and font. -/
def textWidth (env : FontEnv) (f : Font) (s : String) : Int :=
  (env.bbox f s).x1 - (env.bbox f s).x0

/-- The title string. -/
def titleText : String := "Flow iQ"

/-- The tagline string. -/
def taglineText : String := "Intelligent Menstrual Health"

/-- The canvas `create_screenshot` builds before `img.save`: gradient
background, then the title "Flow iQ" at
`((width - text_width)//2, (height - text_height)//2 - 100)` in white with
`font_large`, then the tagline at `((width - text_width)//2, height//2 + 50)`
in white with `font_small`. -/
def renderedImage (env : FontEnv) (width height : Nat) : Image :=
  let img := gradientImage width height
  let fonts := loadFonts env.avail
  let font_large := fonts.1
  let font_small := fonts.2
  let bb := env.bbox font_large titleText
  let text_width := bb.x1 - bb.x0
  let text_height := bb.y1 - bb.y0
  let x := centerX width text_width
  let y := ((height : Int) - text_height).fdiv 2 - 100
  let img := img.drawText env font_large titleText (x, y) white
  let bb2 := env.bbox font_small taglineText
  let tw2 := bb2.x1 - bb2.x0
  let x2 := centerX width tw2
  let y2 := ((height / 2 : Nat) : Int) + 50
  img.drawText env font_small taglineText (x2, y2) white

/-- Errors the OS calls of the script can raise (Python `FileNotFoundError`,
`IsADirectoryError`, `FileExistsError` / `NotADirectoryError`). -/
inductive OsError where
  | fileNotFound
  | isADirectory
  | fileExists
deriving DecidableEq, Repr

/-- The filesystem the script touches: a set of existing directories and the
regular files (with the image content written to them).  Paths are component
lists; `[]` is the working directory. -/
structure FS where
  dirs : List (List String)
  files : List (List String × Image)

/-- The filesystem after (over)writing the regular file at `path` with the
image `img`. -/
def FS.withFile (fs : FS) (path : List String) (img : Image) : FS :=
  { fs with files := fs.files.filter (fun f => !(f.1 == path)) ++ [(path, img)] }

/-- The call `img.save(filename)`: opening the target for writing fails with
`FileNotFoundError` when the parent directory does not exist and with
`IsADirectoryError` when the path itself is a directory; otherwise the file
is (over)written.  `save` never creates a directory. -/
def FS.save (fs : FS) (path : List String) (img : Image) : Except OsError FS :=
  if path.dropLast ∈ fs.dirs then
    if path ∈ fs.dirs then Except.error OsError.isADirectory
    else Except.ok (fs.withFile path img)
  else Except.error OsError.fileNotFound

/-- One `mkdir` step of `os.makedirs(..., exist_ok=True)`: an existing
directory is fine, a regular file in the way raises. -/
def FS.mkdir1 (fs : FS) (p : List String) : Except OsError FS :=
  if p ∈ fs.files.map Prod.fst then Except.error OsError.fileExists
  else Except.ok { fs with dirs := if p ∈ fs.dirs then fs.dirs else fs.dirs ++ [p] }

/-- The call `os.makedirs(path, exist_ok=True)`: create every missing leading
component of `path` in order. -/
def FS.makedirs (fs : FS) (path : List String) : Except OsError FS :=
  (List.range path.length).foldlM (fun f i => f.mkdir1 (path.take (i + 1))) fs

/-- The function `create_screenshot(width, height, filename, device_name)`: build the
canvas and save it.  The trailing `print` writes to the console only. -/
def create_screenshot (env : FontEnv) (fs : FS) (width height : Nat)
    (filename : List String) (device_name : String) : Except OsError FS :=
  let _ := device_name
  fs.save filename (renderedImage env width height)

/-- The module-level driver: two `os.makedirs(..., exist_ok=True)` calls,
then `create_screenshot(1290, 2796, f"screenshots/iphone/screenshot_{i}.png",
"iPhone")` for `i in range(1, 6)` and
`create_screenshot(2048, 2732, f"screenshots/ipad/screenshot_{i}.png",
"iPad")` for `i in range(1, 4)`.  An error anywhere propagates (the script
installs no handler), abandoning the rest of the run. -/
def driver (env : FontEnv) (fs : FS) : Except OsError FS := do
  let fs ← fs.makedirs ["screenshots", "iphone"]
  let fs ← fs.makedirs ["screenshots", "ipad"]
  let fs ← (List.range' 1 5).foldlM (fun f i =>
    create_screenshot env f 1290 2796
      ["screenshots", "iphone", "screenshot_" ++ toString i ++ ".png"] "iPhone") fs
  let fs ← (List.range' 1 3).foldlM (fun f i =>
    create_screenshot env f 2048 2732
      ["screenshots", "ipad", "screenshot_" ++ toString i ++ ".png"] "iPad") fs
  pure fs

/-- The process exit status: 0 when the script runs to completion, 1 when an
uncaught exception terminates it (CPython exits with status 1 after printing
the traceback). -/
def exitCode (r : Except OsError FS) : Nat :=
  match r with
  | Except.ok _ => 0
  | Except.error _ => 1

/-- A filesystem containing just the working directory: the state the clean
end-to-end run of the spec starts from. -/
def cleanFS : FS := ⟨[[]], []⟩

/-- Holds when `a` and `b` differ by at most 1. -/
def within1 (a b : Nat) : Prop := a ≤ b + 1 ∧ b ≤ a + 1

/-- Channel-wise "within 1 unit" between two colors. -/
def rgbWithin1 (c d : RGB) : Prop :=
  within1 c.r d.r ∧ within1 c.g d.g ∧ within1 c.b d.b

instance (a b : Nat) : Decidable (within1 a b) := by unfold within1; infer_instance

instance (c d : RGB) : Decidable (rgbWithin1 c d) := by unfold rgbWithin1; infer_instance

/-- The description the spec gives of the row color: the linear interpolation between
channel values `s` (at `y = 0`) and `e`, proportional to `y / height`,
before truncation to an integer. -/
def specLerp (s e : Rat) (y height : Nat) : Rat :=
  s + (e - s) * y / height

/-! ### Gradient loop lemmas -/

/-- Folding `drawLineH` over a list of rows leaves the canvas dimensions
unchanged. -/
lemma foldl_drawLineH_width (f : Nat → RGB) (l : List Nat) (img : Image) :
    ((l.foldl (fun im y => im.drawLineH y (f y)) img)).width = img.width := by
  induction l generalizing img with
  | nil => rfl
  | cons a t ih => rw [List.foldl_cons, ih]; rfl

/-- Folding `drawLineH` over a list of rows leaves the canvas height
unchanged. -/
lemma foldl_drawLineH_height (f : Nat → RGB) (l : List Nat) (img : Image) :
    ((l.foldl (fun im y => im.drawLineH y (f y)) img)).height = img.height := by
  induction l generalizing img with
  | nil => rfl
  | cons a t ih => rw [List.foldl_cons, ih]; rfl

/-- The pixel at `(x, y)` after folding `drawLineH` over a list of rows:
rows in the list get their color, other pixels are untouched. -/
lemma foldl_drawLineH_pix (f : Nat → RGB) (l : List Nat) (img : Image)
    (x y : Nat) :
    ((l.foldl (fun im y' => im.drawLineH y' (f y')) img)).pix x y =
      if y ∈ l then f y else img.pix x y := by
  induction l generalizing img with
  | nil => simp
  | cons a t ih =>
    rw [List.foldl_cons, ih]
    by_cases hyt : y ∈ t
    · simp [hyt]
    · by_cases hya : y = a
      · simp [Image.drawLineH, hyt, hya]
      · simp [Image.drawLineH, hyt, hya]

/-- The built `gradientImage` keeps the requested width. -/
lemma gradientImage_width (w h : Nat) : (gradientImage w h).width = w := by
  unfold gradientImage
  rw [foldl_drawLineH_width]
  rfl

/-- The built `gradientImage` keeps the requested height. -/
lemma gradientImage_height (w h : Nat) : (gradientImage w h).height = h := by
  unfold gradientImage
  rw [foldl_drawLineH_height]
  rfl

/-- After the gradient loop, every pixel of row `y < height` holds the row
color `gradColor height y`. -/
lemma gradientImage_pix (w h x y : Nat) (hy : y < h) :
    (gradientImage w h).pix x y = gradColor h y := by
  unfold gradientImage
  rw [foldl_drawLineH_pix]
  simp [List.mem_range, hy]

/-! ### Row-color arithmetic

Each channel of `gradColor` has the shape `(s * h - d * y) / h` with
`s` the start value and `d = s - e` the total drop toward the end value
`e`; the three instances are `(108, 29)`, `(102, 32)` and `(241, 12)`. -/

/-- Lower bound: the channel never drops below the end value `s - d`. -/
lemma chan_lower (s d h y : Nat) (hy : y < h) :
    s - d ≤ (s * h - d * y) / h := by
  have h0 : 0 < h := Nat.lt_of_le_of_lt (Nat.zero_le y) hy
  rw [Nat.le_div_iff_mul_le h0, Nat.sub_mul]
  exact Nat.sub_le_sub_left (Nat.mul_le_mul_left d hy.le) (s * h)

/-- Upper bound: the channel never exceeds the start value `s`. -/
lemma chan_upper (s d h y : Nat) (h0 : 0 < h) :
    (s * h - d * y) / h ≤ s := by
  calc (s * h - d * y) / h ≤ s * h / h :=
        Nat.div_le_div_right (Nat.sub_le (s * h) (d * y))
    _ = s := Nat.mul_div_left s h0

/-- The channel value is non-increasing in the row index `y`. -/
lemma chan_antitone (s d h : Nat) {y y' : Nat} (hle : y ≤ y') :
    (s * h - d * y') / h ≤ (s * h - d * y) / h :=
  Nat.div_le_div_right (Nat.sub_le_sub_left (Nat.mul_le_mul_left d hle) (s * h))

/-- Exact value at the top row. -/
lemma chan_top (s d h : Nat) (h0 : 0 < h) : (s * h - d * 0) / h = s := by
  simp [Nat.mul_div_left s h0]

/-- Exact value at the bottom row `y = h - 1`: the end value `s - d` plus
the rounding excess `d / h`. -/
lemma chan_bottom (s d h : Nat) (hds : d ≤ s) (h1 : 0 < h) :
    (s * h - d * (h - 1)) / h = (s - d) + d / h := by
  have h2 : d * (h - 1) + d = d * h := by
    rw [← Nat.mul_succ]
    congr 1
    omega
  have h3 : d * h ≤ s * h := Nat.mul_le_mul_right h hds
  have h4 : (s - d) * h + d * h = s * h := by
    rw [← Nat.add_mul]
    congr 1
    omega
  have hnum : s * h - d * (h - 1) = d + (s - d) * h := by omega
  rw [hnum, Nat.add_mul_div_right _ _ h1, Nat.add_comm]

/-- C10, the claim as stated.  For every `height ≥ 1` and row
`y ∈ [0, height)`, each channel of the gradient row color lies between the
end and start values (red in `[79, 108]`, green in `[70, 102]`, blue in
`[229, 241]`), the channels are non-increasing as `y` increases, and the
divisor `height` of the row-color formula is positive whenever the loop body
runs (`y < height` forces `0 < height`, so the division never divides by
zero). -/
theorem C10_gradient_channel_invariants (h y y' : Nat)
    (hy : y < h) (hle : y ≤ y') (hy' : y' < h) :
    (79 ≤ (gradColor h y).r ∧ (gradColor h y).r ≤ 108) ∧
    (70 ≤ (gradColor h y).g ∧ (gradColor h y).g ≤ 102) ∧
    (229 ≤ (gradColor h y).b ∧ (gradColor h y).b ≤ 241) ∧
    ((gradColor h y').r ≤ (gradColor h y).r ∧
     (gradColor h y').g ≤ (gradColor h y).g ∧
     (gradColor h y').b ≤ (gradColor h y).b) ∧
    0 < h := by
  have h0 : 0 < h := Nat.lt_of_le_of_lt (Nat.zero_le y) hy
  refine ⟨⟨?_, ?_⟩, ⟨?_, ?_⟩, ⟨?_, ?_⟩, ⟨?_, ?_, ?_⟩, h0⟩
  · simpa using chan_lower 108 29 h y hy
  · simpa using chan_upper 108 29 h y h0
  · simpa using chan_lower 102 32 h y hy
  · simpa using chan_upper 102 32 h y h0
  · simpa using chan_lower 241 12 h y hy
  · simpa using chan_upper 241 12 h y h0
  · exact chan_antitone 108 29 h hle
  · exact chan_antitone 102 32 h hle
  · exact chan_antitone 241 12 h hle

/-- Witness for C10 at `height = 2`, `y = 0`, `y' = 1`. -/
theorem C10_gradient_channel_invariants_witness :
    (0 < 2 ∧ (0 : Nat) ≤ 1 ∧ 1 < 2) ∧
    ((79 ≤ (gradColor 2 0).r ∧ (gradColor 2 0).r ≤ 108) ∧
     (70 ≤ (gradColor 2 0).g ∧ (gradColor 2 0).g ≤ 102) ∧
     (229 ≤ (gradColor 2 0).b ∧ (gradColor 2 0).b ≤ 241) ∧
     ((gradColor 2 1).r ≤ (gradColor 2 0).r ∧
      (gradColor 2 1).g ≤ (gradColor 2 0).g ∧
      (gradColor 2 1).b ≤ (gradColor 2 0).b) ∧
     0 < 2) :=
  ⟨by decide,
   C10_gradient_channel_invariants 2 0 1 (by decide) (by decide) (by decide)⟩

/-! ### C1: top and bottom scan-lines of the gradient -/

/-- C1 counterexample.  At `width = 1`, `height = 16` the bottom scan-line
`y = 15` of the painted gradient is `(81, 72, 230)`: its green channel `72`
differs from the green `70` of the end color by 2, so the bottom scan-line is
not within 1 unit per channel of the end color, refuting the quantifier "for every
width > 0 and height > 0". -/
theorem C1_counterexample :
    ¬ rgbWithin1 ((gradientImage 1 16).pix 0 15) endColor := by decide

/-- C1 amended: for every `width > 0` and every `height ≥ 17` (rather than
every `height > 0`), the gradient painted by `create_screenshot` has its top
scan-line equal to the start color `(108, 102, 241)` exactly, and its bottom
scan-line within 1 unit per channel of the end color `(79, 70, 229)`.
(For `height ≤ 16` the bottom row misses the end color by more than 1 in
some channel; `height = 17` is the exact threshold.) -/
theorem C1_amended_gradient_endpoints (w h : Nat) (hw : 0 < w) (hh : 17 ≤ h)
    (x : Nat) (hx : x < w) :
    (gradientImage w h).pix x 0 = startColor ∧
    rgbWithin1 ((gradientImage w h).pix x (h - 1)) endColor := by
  have h0 : 0 < h := by omega
  constructor
  · rw [gradientImage_pix w h x 0 h0]
    unfold gradColor startColor
    rw [chan_top 108 29 h h0, chan_top 102 32 h h0, chan_top 241 12 h h0]
  · rw [gradientImage_pix w h x (h - 1) (by omega)]
    unfold rgbWithin1 within1 gradColor endColor
    simp only
    rw [chan_bottom 108 29 h (by norm_num) h0,
        chan_bottom 102 32 h (by norm_num) h0,
        chan_bottom 241 12 h (by norm_num) h0]
    have h29 : 29 / h < 2 := (Nat.div_lt_iff_lt_mul h0).2 (by omega)
    have h32 : 32 / h < 2 := (Nat.div_lt_iff_lt_mul h0).2 (by omega)
    have h12 : 12 / h < 2 := (Nat.div_lt_iff_lt_mul h0).2 (by omega)
    generalize 29 / h = a at h29 ⊢
    generalize 32 / h = b at h32 ⊢
    generalize 12 / h = c at h12 ⊢
    omega

/-- Witness for the amended C1 at `width = 1`, `height = 17`, `x = 0`. -/
theorem C1_amended_gradient_endpoints_witness :
    (0 < 1 ∧ 17 ≤ 17 ∧ 0 < 1) ∧
    ((gradientImage 1 17).pix 0 0 = startColor ∧
     rgbWithin1 ((gradientImage 1 17).pix 0 (17 - 1)) endColor) :=
  ⟨by decide,
   C1_amended_gradient_endpoints 1 17 (by decide) (by decide) 0 (by decide)⟩

/-! ### C3: uniform rows and the interpolation formula -/

/-- For `e ≤ s` and `y < h`, the floor of the interpolated channel value of
the spec equals the natural-division channel value the code computes (the
Python `int` truncation agrees with the floor because the value is positive). -/
lemma floor_specLerp (s e y h : Nat) (hse : e ≤ s) (hy : y < h) :
    ⌊specLerp s e y h⌋ = ((s * h - (s - e) * y) / h : Nat) := by
  have h0 : 0 < h := Nat.lt_of_le_of_lt (Nat.zero_le y) hy
  have hq : (h : Rat) ≠ 0 := Nat.cast_ne_zero.2 h0.ne'
  have hle : (s - e) * y ≤ s * h := Nat.mul_le_mul (Nat.sub_le s e) hy.le
  have key : specLerp s e y h = ((s * h - (s - e) * y : Nat) : Rat) / (h : Rat) := by
    unfold specLerp
    rw [Nat.cast_sub hle, Nat.cast_mul, Nat.cast_mul, Nat.cast_sub hse]
    field_simp
    ring
  rw [key,
    ← Int.natCast_floor_eq_floor
      (div_nonneg (Nat.cast_nonneg _) (Nat.cast_nonneg _)),
    Nat.floor_div_eq_div]

/-- C3: for every `width, height > 0` and every row `y ∈ [0, height)`, the
gradient loop paints every pixel `x < width` of row `y` the same color (no
horizontal variation), and that color is, per channel, the linear
interpolation between the start color `(108, 102, 241)` and end color
`(79, 70, 229)` proportional to `y / height`, truncated to an integer. -/
theorem C3_uniform_row_interpolation (w h x y : Nat)
    (hw : 0 < w) (hh : 0 < h) (hy : y < h) (hx : x < w) :
    (gradientImage w h).pix x y = gradColor h y ∧
    ((gradColor h y).r : Int) = ⌊specLerp 108 79 y h⌋ ∧
    ((gradColor h y).g : Int) = ⌊specLerp 102 70 y h⌋ ∧
    ((gradColor h y).b : Int) = ⌊specLerp 241 229 y h⌋ := by
  refine ⟨gradientImage_pix w h x y hy, ?_, ?_, ?_⟩
  · have e1 := floor_specLerp 108 79 y h (by norm_num) hy
    norm_num at e1
    rw [e1]
    norm_num [gradColor]
  · have e2 := floor_specLerp 102 70 y h (by norm_num) hy
    norm_num at e2
    rw [e2]
    norm_num [gradColor]
  · have e3 := floor_specLerp 241 229 y h (by norm_num) hy
    norm_num at e3
    rw [e3]
    norm_num [gradColor]

/-- Witness for C3 at `width = 1`, `height = 3`, `x = 0`, `y = 1`. -/
theorem C3_uniform_row_interpolation_witness :
    (0 < 1 ∧ 0 < 3 ∧ 1 < 3 ∧ 0 < 1) ∧
    ((gradientImage 1 3).pix 0 1 = gradColor 3 1 ∧
     ((gradColor 3 1).r : Int) = ⌊specLerp 108 79 1 3⌋ ∧
     ((gradColor 3 1).g : Int) = ⌊specLerp 102 70 1 3⌋ ∧
     ((gradColor 3 1).b : Int) = ⌊specLerp 241 229 1 3⌋) :=
  ⟨by decide,
   C3_uniform_row_interpolation 1 3 0 1 (by decide) (by decide) (by decide)
     (by decide)⟩

/-! ### C5: horizontal centering -/

/-- Centering arithmetic: drawing a string of measured width `tw` at
`x = (w - tw) // 2` puts the midpoint `x + tw / 2` of its horizontal span
within 1 pixel of `w / 2` (in fact within half a pixel). -/
lemma centerX_half (w : Nat) (tw : Int) :
    |(w : Rat) / 2 - ((centerX w tw : Rat) + (tw : Rat) / 2)| ≤ 1 := by
  unfold centerX
  rw [Int.fdiv_eq_ediv _ (by norm_num)]
  have key : (w : Int) - tw = 2 * (((w : Int) - tw) / 2) + ((w : Int) - tw) % 2 :=
    (Int.ediv_add_emod _ 2).symm
  have keyQ : (w : Rat) - (tw : Rat) =
      2 * ((((w : Int) - tw) / 2 : Int) : Rat) + ((((w : Int) - tw) % 2 : Int) : Rat) := by
    exact_mod_cast congrArg (fun z : Int => (z : Rat)) key
  rcases Int.emod_two_eq_zero_or_one ((w : Int) - tw) with h | h <;>
    rw [h] at keyQ <;>
    · rw [abs_le]
      constructor <;> push_cast at keyQ ⊢ <;> linarith

/-- A concrete host environment for the closed witness instances:
no font loads succeed, every string measures as the box `(0, 0, 700, 100)`,
glyphs cover no pixels. -/
def testEnv : FontEnv :=
  ⟨fun _ _ => false, fun _ _ => ⟨0, 0, 700, 100⟩, fun _ _ _ _ => false⟩

/-- C5: for every width > 0 and height > 0 and every host environment, both
the title "Flow iQ" (drawn with `font_large`) and the tagline (drawn with
`font_small`) are horizontally centered by `create_screenshot`: the draw
`x` is `(width - text_width) // 2` for the measured width
`text_width = bbox[2] - bbox[0]`, and the midpoint `x + text_width / 2` of
the span of the drawn string differs from `width / 2` by at most 1 pixel. -/
theorem C5_text_centering (env : FontEnv) (w h : Nat) (hw : 0 < w) (hh : 0 < h) :
    |(w : Rat) / 2 -
        ((centerX w (textWidth env (loadFonts env.avail).1 titleText) : Rat) +
          (textWidth env (loadFonts env.avail).1 titleText : Rat) / 2)| ≤ 1 ∧
    |(w : Rat) / 2 -
        ((centerX w (textWidth env (loadFonts env.avail).2 taglineText) : Rat) +
          (textWidth env (loadFonts env.avail).2 taglineText : Rat) / 2)| ≤ 1 :=
  ⟨centerX_half w _, centerX_half w _⟩

/-- Witness for C5 at the iPhone size with the concrete test environment. -/
theorem C5_text_centering_witness :
    (0 < 1290 ∧ 0 < 2796) ∧
    (|(1290 : Rat) / 2 -
        ((centerX 1290 (textWidth testEnv (loadFonts testEnv.avail).1 titleText) : Rat) +
          (textWidth testEnv (loadFonts testEnv.avail).1 titleText : Rat) / 2)| ≤ 1 ∧
     |(1290 : Rat) / 2 -
        ((centerX 1290 (textWidth testEnv (loadFonts testEnv.avail).2 taglineText) : Rat) +
          (textWidth testEnv (loadFonts testEnv.avail).2 taglineText : Rat) / 2)| ≤ 1) :=
  ⟨by decide, C5_text_centering testEnv 1290 2796 (by decide) (by decide)⟩

/-! ### C6: canvas dimensions -/

/-- Drawing text does not change the canvas width. -/
lemma Image.drawText_width (img : Image) (env : FontEnv) (f : Font)
    (s : String) (pos : Int × Int) (fill : RGB) :
    (img.drawText env f s pos fill).width = img.width := rfl

/-- Drawing text does not change the canvas height. -/
lemma Image.drawText_height (img : Image) (env : FontEnv) (f : Font)
    (s : String) (pos : Int × Int) (fill : RGB) :
    (img.drawText env f s pos fill).height = img.height := rfl

/-- The finished canvas keeps the requested width. -/
lemma renderedImage_width (env : FontEnv) (w h : Nat) :
    (renderedImage env w h).width = w := by
  simp [renderedImage, Image.drawText_width, gradientImage_width]

/-- The finished canvas keeps the requested height. -/
lemma renderedImage_height (env : FontEnv) (w h : Nat) :
    (renderedImage env w h).height = h := by
  simp [renderedImage, Image.drawText_height, gradientImage_height]

/-- C6: for every width and height, the canvas allocated at the start of
`create_screenshot` and the finished image it saves have exactly
`width × height` pixel dimensions — neither the gradient loop nor the two
text draws resize it. -/
theorem C6_image_dimensions (env : FontEnv) (w h : Nat) :
    (gradientImage w h).width = w ∧ (gradientImage w h).height = h ∧
    (renderedImage env w h).width = w ∧ (renderedImage env w h).height = h :=
  ⟨gradientImage_width w h, gradientImage_height w h,
   renderedImage_width env w h, renderedImage_height env w h⟩

/-! ### C7: no directory creation -/

/-- C7: `create_screenshot` never creates a directory.  If the parent
directory of the output path is missing, the save raises
`FileNotFoundError` (the error propagates, and the filesystem of the
`Except.error` outcome is unchanged — no new directories appear); and on
the success path the directory set is returned untouched. -/
theorem C7_no_directory_creation (env : FontEnv) (fs : FS) (w h : Nat)
    (path : List String) (name : String) :
    (path.dropLast ∉ fs.dirs →
      create_screenshot env fs w h path name = Except.error OsError.fileNotFound) ∧
    (∀ fs', create_screenshot env fs w h path name = Except.ok fs' →
      fs'.dirs = fs.dirs) := by
  constructor
  · intro hnd
    simp only [create_screenshot, FS.save]
    rw [if_neg hnd]
  · intro fs' hok
    simp only [create_screenshot, FS.save] at hok
    by_cases h1 : path.dropLast ∈ fs.dirs
    · rw [if_pos h1] at hok
      by_cases h2 : path ∈ fs.dirs
      · rw [if_pos h2] at hok
        exact absurd hok (by simp)
      · rw [if_neg h2] at hok
        cases hok
        rfl
    · rw [if_neg h1] at hok
      exact absurd hok (by simp)

/-- Witness for C7: saving into the missing directory `screenshots/iphone`
from a filesystem holding only the working directory fails with
`FileNotFoundError`. -/
theorem C7_no_directory_creation_witness :
    (["screenshots", "iphone", "screenshot_1.png"].dropLast ∉ cleanFS.dirs) ∧
    create_screenshot testEnv cleanFS 1290 2796
        ["screenshots", "iphone", "screenshot_1.png"] "iPhone" =
      Except.error OsError.fileNotFound :=
  ⟨by decide,
   (C7_no_directory_creation testEnv cleanFS 1290 2796
       ["screenshots", "iphone", "screenshot_1.png"] "iPhone").1 (by decide)⟩

/-! ### C8 and C9: font loading -/

/-- C9: after the `try/except` font-loading block, `font_large` and
`font_small` are always of the same kind — either both are the loaded
truetype faces at sizes 120 and 60, or both are the built-in default font.
(A failure loading either size lands in the handler, which assigns the
default to both, so the two texts are never drawn with mixed font kinds.) -/
theorem C9_fonts_same_kind (avail : String → Nat → Bool) :
    loadFonts avail =
      (Font.truetype helveticaPath 120, Font.truetype helveticaPath 60) ∨
    loadFonts avail = (Font.load_default, Font.load_default) := by
  unfold loadFonts
  by_cases hav : (avail helveticaPath 120 && avail helveticaPath 60) = true
  · left
    rw [if_pos hav]
  · right
    rw [if_neg hav]

/-- C8: whenever the preferred truetype font cannot be loaded (at either
size, for any reason the oracle reports), `create_screenshot` does not fail
on that account: both text sizes fall back to the built-in default font and
the generation and save complete exactly as on the success path (whenever
the output location is writable). -/
theorem C8_font_fallback_nonfatal (env : FontEnv) (fs : FS) (w h : Nat)
    (path : List String) (name : String)
    (hfail : env.avail helveticaPath 120 = false ∨
             env.avail helveticaPath 60 = false) :
    loadFonts env.avail = (Font.load_default, Font.load_default) ∧
    (path.dropLast ∈ fs.dirs → path ∉ fs.dirs →
      create_screenshot env fs w h path name =
        Except.ok (fs.withFile path (renderedImage env w h))) := by
  constructor
  · unfold loadFonts
    rcases hfail with hf | hf <;> simp [hf]
  · intro h1 h2
    simp only [create_screenshot, FS.save]
    rw [if_pos h1, if_neg h2]

/-- Witness for C8: with no font loadable, saving `out.png` into the working
directory succeeds with the fallback fonts. -/
theorem C8_font_fallback_nonfatal_witness :
    (testEnv.avail helveticaPath 120 = false) ∧
    (["out.png"].dropLast ∈ cleanFS.dirs) ∧ (["out.png"] ∉ cleanFS.dirs) ∧
    create_screenshot testEnv cleanFS 5 5 ["out.png"] "demo" =
      Except.ok (cleanFS.withFile ["out.png"] (renderedImage testEnv 5 5)) :=
  ⟨rfl, by decide, by decide,
   (C8_font_fallback_nonfatal testEnv cleanFS 5 5 ["out.png"] "demo"
       (Or.inl rfl)).2 (by decide) (by decide)⟩

/-! ### C2 and C4: the module-level driver -/

/-- A filesystem in which both output directories already exist but a
directory sits at `screenshots/iphone/screenshot_1.png`, so the first
first generation raises in `img.save`. -/
def blockedFS : FS :=
  ⟨[[], ["screenshots"], ["screenshots", "iphone"], ["screenshots", "ipad"],
    ["screenshots", "iphone", "screenshot_1.png"]], []⟩

/-- C2 counterexample.  There is a state of the host (a directory occupying
the first output filename) in which the first generation call fails, the
exception propagates out of the module-level code uncaught, and the process
exit status is 1, not 0 — refuting "exits with status 0 unconditionally,
including when a generation call fails".  No file is produced and the
remaining 7 generations are never attempted. -/
theorem C2_counterexample :
    driver testEnv blockedFS = Except.error OsError.isADirectory ∧
    exitCode (driver testEnv blockedFS) = 1 := ⟨rfl, rfl⟩

/-- The filesystem a clean run of the driver ends in: the two created
directory chains and the eight saved screenshots. -/
def driverFinalFS (env : FontEnv) : FS :=
  ⟨[[], ["screenshots"], ["screenshots", "iphone"], ["screenshots", "ipad"]],
   [(["screenshots", "iphone", "screenshot_1.png"], renderedImage env 1290 2796),
    (["screenshots", "iphone", "screenshot_2.png"], renderedImage env 1290 2796),
    (["screenshots", "iphone", "screenshot_3.png"], renderedImage env 1290 2796),
    (["screenshots", "iphone", "screenshot_4.png"], renderedImage env 1290 2796),
    (["screenshots", "iphone", "screenshot_5.png"], renderedImage env 1290 2796),
    (["screenshots", "ipad", "screenshot_1.png"], renderedImage env 2048 2732),
    (["screenshots", "ipad", "screenshot_2.png"], renderedImage env 2048 2732),
    (["screenshots", "ipad", "screenshot_3.png"], renderedImage env 2048 2732)]⟩

set_option maxHeartbeats 3000000 in
/-- From the clean filesystem the driver runs to completion, creating both
directory chains and saving the eight screenshots in order. -/
lemma driver_cleanFS (env : FontEnv) :
    driver env cleanFS = Except.ok (driverFinalFS env) := rfl

/-- C2 amended: running the script with no arguments performs all 8
generations and exits with status 0 whenever every directory creation and
save succeeds (in particular from a filesystem holding just the working
directory); when any step fails, the script has no handler, so the failure
propagates uncaught and the process exits with the non-zero status 1 —
exit status 0 occurs exactly on runs where nothing failed. -/
theorem C2_amended_exit_status (env : FontEnv) :
    (driver env cleanFS).map (fun fs => fs.files.length) = Except.ok 8 ∧
    exitCode (driver env cleanFS) = 0 ∧
    (∀ fs : FS, exitCode (driver env fs) = 0 ↔
      ∃ fs', driver env fs = Except.ok fs') := by
  refine ⟨?_, ?_, ?_⟩
  · rw [driver_cleanFS]
    rfl
  · rw [driver_cleanFS]
    rfl
  · intro fs
    cases hd : driver env fs with
    | ok fs' => simp [exitCode, hd]
    | error e => simp [exitCode, hd]

/-- C4: invoking the full driver on a filesystem where the directories are
creatable (only the working directory exists), with fonts resolvable or not
(`env` is arbitrary), produces exactly the 5 PNG files
`screenshots/iphone/screenshot_1.png` .. `screenshot_5.png`, each
1290 × 2796 pixels, then exactly the 3 files
`screenshots/ipad/screenshot_1.png` .. `screenshot_3.png`, each
2048 × 2732 pixels, and no other output files. -/
theorem C4_driver_outputs (env : FontEnv) :
    (driver env cleanFS).map
        (fun fs => fs.files.map (fun f => (f.1, f.2.width, f.2.height))) =
      Except.ok
        [(["screenshots", "iphone", "screenshot_1.png"], 1290, 2796),
         (["screenshots", "iphone", "screenshot_2.png"], 1290, 2796),
         (["screenshots", "iphone", "screenshot_3.png"], 1290, 2796),
         (["screenshots", "iphone", "screenshot_4.png"], 1290, 2796),
         (["screenshots", "iphone", "screenshot_5.png"], 1290, 2796),
         (["screenshots", "ipad", "screenshot_1.png"], 2048, 2732),
         (["screenshots", "ipad", "screenshot_2.png"], 2048, 2732),
         (["screenshots", "ipad", "screenshot_3.png"], 2048, 2732)] := by
  rw [driver_cleanFS]
  simp [driverFinalFS, Except.map, renderedImage_width, renderedImage_height]
